import Mathlib

/-!
Shallow embedding of the authentication/session core and the contact CRUD
scoping of the contacts-management backend (FastAPI + SQLAlchemy + Redis):

* `src/services/auth.py` — password hashing and verification via passlib,
  JWT issuance, and `get_current_user` (the cache-then-database session
  resolver).
* `src/repository/users.py` — email-verification-token redemption
  (`verify_token`) and `update_avatar`.
* `src/conf/redis.py` — the `RedisCacheManager` user cache.
* `src/routes/users.py` — registration token issuance, email verification,
  password-reset request/redemption routes.
* `src/repository/contacts.py` and `src/routes/contacts.py` — per-user
  scoped contact reads and writes.

Databases are embedded as lists of records, the Redis cache as an
association list from key to JSON-dict entry with TTL, and JWT strings as
an inductive that either decodes to a claim payload or fails (covering bad
signature, malformed structure, and expiry, all of which `jose.jwt.decode`
reports by raising `JWTError`).  Fallible Python paths return `Except` or
`Option`; the per-call salt drawn by bcrypt is passed explicitly.
-/

namespace ContactsApp

/-- `UserRole` from `src/schemas/users.py`: a string enum with values
`"user"` and `"admin"`. -/
inductive UserRole
  | user
  | admin
  deriving DecidableEq, Repr

/-- The string value a `UserRole` serializes to (it is a `str` enum in
Python, so this is how it lands in JSON). -/
def UserRole.toStr : UserRole → String
  | .user => "user"
  | .admin => "admin"

/-- Parsing a role string back, as pydantic does when deserializing. -/
def UserRole.ofStr : String → Option UserRole := fun s =>
  if s = "user" then some .user
  else if s = "admin" then some .admin
  else none

/-- `passlib` errors: `CryptContext.verify` raises `UnknownHashError` when
the second argument cannot be identified as a digest of any configured
scheme (here only bcrypt). -/
inductive PasslibError
  | unknownHash
  deriving DecidableEq, Repr

/-- A Python string in digest position, viewed through passlib's
hash-identification step: either it is identified as a bcrypt digest
(carrying the embedded salt and the checksum), or it is not identifiable
as any configured scheme. -/
inductive Digest
  | bcrypt (salt : Nat) (tag : Nat)
  | malformed (s : String)
  deriving DecidableEq, Repr

/-- Abstract stand-in for the bcrypt key-derivation function used by
`pwd_context = CryptContext(schemes=["bcrypt"])`: a pure function of the
salt and the password.  The concrete mixing is irrelevant to the proofs;
only recomputability from the embedded salt is used. -/
def bcryptKdf (salt : Nat) (password : String) : Nat :=
  password.foldl (fun a c => a * 131 + c.toNat) (salt * 1000003 + 7)

/-- `get_password_hash` from `src/services/auth.py`:
`pwd_context.hash(password)` draws a fresh random salt and produces a
salted bcrypt digest.  The fresh salt is the explicit first argument. -/
def get_password_hash (salt : Nat) (password : String) : Digest :=
  .bcrypt salt (bcryptKdf salt password)

/-- `verify_password` from `src/services/auth.py`:
`pwd_context.verify(plain, hashed)` recomputes the digest using the salt
embedded in `hashed` and compares; if `hashed` cannot be identified as a
digest of a configured scheme, passlib raises `UnknownHashError` (it does
not return `False`). -/
def verify_password (plain : String) (digest : Digest) : Except PasslibError Bool :=
  match digest with
  | .bcrypt salt tag => .ok (bcryptKdf salt plain == tag)
  | .malformed _ => .error .unknownHash

/-- Modelled from the spec: the `User` ORM record of `src/entity/models.py`
(the models module is not under `src/`).  Spec §3: "unique numeric id,
unique email ..., opaque password hash, verification flag (boolean,
default false), role (enum: USER, ADMIN), optional avatar URL, creation
timestamp".  The creation timestamp is embedded as its ISO-format
string. -/
structure User where
  id : Int
  email : String
  hashed_password : Digest
  is_verified : Bool := false
  role : UserRole := .user
  avatar_url : Option String := none
  created_at : String := ""
  deriving DecidableEq, Repr

/-- The user table, rows in insertion order.  Email uniqueness is the
directory's constraint (spec §3). -/
abbrev Db := List User

/-- `UserRepository.get_by_email` from `src/repository/users.py`:
`SELECT ... WHERE User.email == email`, `scalar_one_or_none` (emails are
unique, so first match suffices). -/
def getByEmail (db : Db) (email : String) : Option User :=
  db.find? (fun u => u.email == email)

/-- JWT claims this application reads: `sub` and the application-level
`type` claim.  (`exp` is folded into `Token` validity below.) -/
structure Payload where
  sub : Option String := none
  typ : Option String := none
  deriving DecidableEq, Repr

/-- `JWTError` raised by `jose.jwt.decode`. -/
inductive JWTError
  | jwtError
  deriving DecidableEq, Repr

/-- A JWT string as seen through `jose.jwt.decode` with this app's secret
and algorithm: either it decodes to a claim payload (well-signed and
unexpired) or decoding raises `JWTError` (bad signature, malformed
structure, or expired). -/
inductive Token
  | valid (payload : Payload)
  | invalid
  deriving DecidableEq, Repr

/-- `jwt.decode(token, SECRET_KEY, algorithms=[ALGORITHM])`. -/
def decodeToken : Token → Except JWTError Payload
  | .valid p => .ok p
  | .invalid => .error .jwtError

/-- `create_access_token` from `src/services/auth.py`: copies the given
claim data and adds `exp`; the expiry is absorbed into `Token`
validity, so the issued token carries exactly the given claims. -/
def create_access_token (data : Payload) : Token :=
  .valid data

/-- A JSON-serializable Python value as stored in the cached user dict. -/
inductive PyVal
  | pyInt (n : Int)
  | pyStr (s : String)
  | pyNone
  deriving DecidableEq, Repr

/-- The JSON dict cached for a user (Python dicts keep insertion order). -/
abbrev UserDict := List (String × PyVal)

/-- One Redis entry: the JSON-encoded dict plus the TTL it was set with. -/
structure CacheEntry where
  data : UserDict
  ttl : Nat
  deriving DecidableEq, Repr

/-- The Redis keyspace visible to `RedisCacheManager`. -/
abbrev Cache := List (String × CacheEntry)

/-- `RedisCacheManager` key format: `self.prefix = "user_cache:"` plus the
email. -/
def cacheKey (email : String) : String :=
  "user_cache:" ++ email

/-- `RedisCacheManager.set_user_data` from `src/conf/redis.py`:
`SET key json.dumps(user_data) EX (expiry or self.expiry)` with
`self.expiry = 3600`.  Python `or` treats `0` as falsy, so an explicit
expiry of `0` also falls back to 3600. -/
def set_user_data (cache : Cache) (email : String) (data : UserDict)
    (expiry : Option Nat) : Cache :=
  let ex := match expiry with
    | some e => if e = 0 then 3600 else e
    | none => 3600
  (cacheKey email, ⟨data, ex⟩) :: cache.filter (fun kv => kv.1 ≠ cacheKey email)

/-- `RedisCacheManager.get_user_data`: `GET key`, JSON-parsed when
present. -/
def get_user_data (cache : Cache) (email : String) : Option UserDict :=
  (cache.find? (fun kv => kv.1 == cacheKey email)).map (fun kv => kv.2.data)

/-- `RedisCacheManager.invalidate_user_data`: `DEL key`. -/
def invalidate_user_data (cache : Cache) (email : String) : Cache :=
  cache.filter (fun kv => kv.1 ≠ cacheKey email)

/-- `UserResponse` from `src/schemas/users.py`: the public user shape —
id, email, created_at, optional avatar_url, role.  `created_at` is kept
as its ISO string (pydantic round-trips it through `datetime`). -/
structure UserResponse where
  id : Int
  email : String
  created_at : String
  avatar_url : Option String := none
  role : UserRole
  deriving DecidableEq, Repr

/-- FastAPI serializing an ORM `User` through `UserResponse`
(`from_attributes = True`). -/
def User.toResponse (u : User) : UserResponse :=
  ⟨u.id, u.email, u.created_at, u.avatar_url, u.role⟩

/-- Dict key lookup (first match; dict keys are unique in Python). -/
def lookupKey (d : UserDict) (k : String) : Option PyVal :=
  (d.find? (fun kv => kv.1 == k)).map (fun kv => kv.2)

/-- `UserResponse(**cached_user)` in `src/services/auth.py`: pydantic
validation of the cached dict into the public user shape; `none` models a
raised `ValidationError`. -/
def userResponseOfDict (d : UserDict) : Option UserResponse :=
  match lookupKey d "id", lookupKey d "email", lookupKey d "created_at",
        lookupKey d "avatar_url", lookupKey d "role" with
  | some (.pyInt i), some (.pyStr e), some (.pyStr c), some av, some (.pyStr r) =>
    match av, UserRole.ofStr r with
    | .pyStr a, some role => some ⟨i, e, c, some a, role⟩
    | .pyNone, some role => some ⟨i, e, c, none, role⟩
    | _, _ => none
  | _, _, _, _, _ => none

/-- `Option String` field serialized into the JSON dict. -/
def optStrVal : Option String → PyVal
  | some s => .pyStr s
  | none => .pyNone

/-- The `user_data` dict literal built at `src/services/auth.py` lines
124-130 before caching: exactly the keys `id`, `email`, `created_at`
(ISO format), `avatar_url`, `role`, in that order. -/
def userDataDict (u : User) : UserDict :=
  [("id", .pyInt u.id),
   ("email", .pyStr u.email),
   ("created_at", .pyStr u.created_at),
   ("avatar_url", optStrVal u.avatar_url),
   ("role", .pyStr u.role.toStr)]

/-- An `HTTPException` as raised by the routes and `get_current_user`. -/
structure HTTPError where
  status : Nat
  detail : String
  deriving DecidableEq, Repr

/-- The `credentials_exception` of `get_current_user`: 401. -/
def credentialsException : HTTPError :=
  ⟨401, "Could not validate credentials"⟩

/-- A pydantic `ValidationError` escaping `UserResponse(**cached_user)`
uncaught (surfaces as a 500). -/
def pydanticValidationFailure : HTTPError :=
  ⟨500, "ValidationError"⟩

/-- Outcome of one `get_current_user` call: the HTTP-visible result, the
cache state afterwards, and how many User Directory (database) reads the
call performed. -/
structure AuthResult where
  result : Except HTTPError UserResponse
  cache : Cache
  dbReads : Nat
  deriving Repr

/-- `get_current_user` from `src/services/auth.py`, transcribed branch by
branch: decode the JWT; 401 when decoding fails, when `sub` is missing,
or when the `type` claim (defaulting to `"access"`) is
`"password_reset"`; then try the Redis cache (a hit is returned without
any database read); on a miss read the directory by email — absent user
is 401, otherwise the public snapshot dict is cached with the default TTL
and the user returned. -/
def get_current_user (token : Token) (cache : Cache) (db : Db) : AuthResult :=
  match decodeToken token with
  | .error _ => ⟨.error credentialsException, cache, 0⟩
  | .ok payload =>
    match payload.sub with
    | none => ⟨.error credentialsException, cache, 0⟩
    | some email =>
      if payload.typ.getD "access" = "password_reset" then
        ⟨.error credentialsException, cache, 0⟩
      else
        match get_user_data cache email with
        | some cached =>
          match userResponseOfDict cached with
          | some r => ⟨.ok r, cache, 0⟩
          | none => ⟨.error pydanticValidationFailure, cache, 0⟩
        | none =>
          match getByEmail db email with
          | none => ⟨.error credentialsException, cache, 1⟩
          | some user =>
            ⟨.ok user.toResponse,
             set_user_data cache email (userDataDict user) none, 1⟩

/-- The externally observable mutable state the user repository touches:
the user table and the Redis cache.  The cache is carried so that frame
properties ("this operation leaves the cache alone") are statable. -/
structure World where
  db : Db
  cache : Cache
  deriving Repr

/-- The ORM committing a mutation of a fetched row: rows are keyed by the
unique email. -/
def Db.updateUser (db : Db) (u : User) : Db :=
  db.map (fun v => if v.email == u.email then u else v)

/-- `UserRepository.verify_token` from `src/repository/users.py`: decode
the JWT (any `JWTError` or missing `sub` gives `None`) — note the `type`
claim is never looked at — then fetch the user by email and, when present
and not yet verified, set `is_verified = True` and commit.  Returns the
user (or `None` when absent). -/
def UserRepository.verify_token (w : World) (token : Token) :
    Option User × World :=
  match decodeToken token with
  | .error _ => (none, w)
  | .ok payload =>
    match payload.sub with
    | none => (none, w)
    | some email =>
      match getByEmail w.db email with
      | none => (none, w)
      | some user =>
        if user.is_verified then (some user, w)
        else
          let u := {user with is_verified := true}
          (some u, {w with db := w.db.updateUser u})

/-- `UserRepository.update_avatar` from `src/repository/users.py`: set
`avatar_url`, commit, return the refreshed user. -/
def UserRepository.update_avatar (w : World) (user : User) (avatarUrl : String) :
    User × World :=
  let u := {user with avatar_url := some avatarUrl}
  (u, {w with db := w.db.updateUser u})

/-- Modelled from the spec: `UserRepository.create_password_reset_token`
is called by `src/routes/users.py` and exercised by the repository tests
but is absent from `src/`.  Spec §4.6 request step: "look up user by
email; if found, issue a `password_reset`-purpose token"; if not found,
no token. -/
def UserRepository.create_password_reset_token (db : Db) (email : String) :
    Option Token :=
  match getByEmail db email with
  | none => none
  | some _ => some (.valid {sub := some email, typ := some "password_reset"})

/-- Modelled from the spec: `UserRepository.reset_password` is called by
`src/routes/users.py` and exercised by the repository tests but is absent
from `src/`.  Spec §4.6 redemption step: validate the token with expected
purpose `password_reset` (any failure — bad signature, expiry, wrong or
missing purpose, missing or unknown subject — yields no user), then hash
the new password and overwrite the stored hash.  `salt` is the fresh salt
drawn by the hasher. -/
def UserRepository.reset_password (w : World) (salt : Nat) (token : Token)
    (newPassword : String) : Option User × World :=
  match decodeToken token with
  | .error _ => (none, w)
  | .ok payload =>
    if payload.typ ≠ some "password_reset" then (none, w)
    else
      match payload.sub with
      | none => (none, w)
      | some email =>
        match getByEmail w.db email with
        | none => (none, w)
        | some user =>
          let u := {user with hashed_password := get_password_hash salt newPassword}
          (some u, {w with db := w.db.updateUser u})

/-- The email-verification token issued by `register_user` in
`src/routes/users.py`: `create_access_token({"sub": new_user.email})` —
only `sub` (plus `exp`), no `type` claim. -/
def registrationToken (email : String) : Token :=
  create_access_token {sub := some email, typ := none}

/-- `verify_email` route (`GET /users/verify`) from `src/routes/users.py`:
400 when `UserRepository.verify_token` yields no user, otherwise the
success message. -/
def verify_email (w : World) (token : Token) : Except HTTPError String × World :=
  match UserRepository.verify_token w token with
  | (none, w) => (.error ⟨400, "Invalid or expired token"⟩, w)
  | (some _, w) => (.ok "Email verified successfully!", w)

/-- `reset_password` route (`POST /users/reset-password`) from
`src/routes/users.py`: 400 when the repository yields no user, otherwise
the success message. -/
def resetPasswordRoute (w : World) (salt : Nat) (token : Token)
    (newPassword : String) : Except HTTPError String × World :=
  match UserRepository.reset_password w salt token newPassword with
  | (none, w) => (.error ⟨400, "Invalid or expired password reset token"⟩, w)
  | (some _, w) => (.ok "Password has been reset successfully", w)

/-- Observable outcome of `POST /users/password-reset-request`: the HTTP
status and body, plus how many reset emails were handed to the background
task. -/
structure ResetRequestResult where
  status : Nat
  message : String
  emailsSent : Nat
  deriving DecidableEq, Repr

/-- `request_password_reset` route from `src/routes/users.py`: create a
reset token (None when the email is unknown); queue the reset email only
when a token exists; always return 200 with the same generic message. -/
def request_password_reset (db : Db) (email : String) : ResetRequestResult :=
  let token := UserRepository.create_password_reset_token db email
  { status := 200
    message := "If your email exists in our system, you will receive a password reset link"
    emailsSent := if token.isSome then 1 else 0 }

/-- `Contact` ORM record as read off `src/schemas/contacts.py` and the
repository queries: owned by exactly one user through `user_id`. -/
structure Contact where
  id : Int
  user_id : Int
  first_name : String
  last_name : String
  email : String
  phone_number : String
  birth_date : Int
  additional_info : Option String := none
  deriving DecidableEq, Repr

/-- The contacts table. -/
abbrev ContactDb := List Contact

/-- SQLAlchemy errors surfaced by `scalar_one_or_none`. -/
inductive DbError
  | multipleResultsFound
  deriving DecidableEq, Repr

/-- `Result.scalar_one_or_none`: none for an empty result, the row for a
singleton, and `MultipleResultsFound` otherwise. -/
def scalarOneOrNone {α : Type} (l : List α) : Except DbError (Option α) :=
  match l with
  | [] => .ok none
  | [a] => .ok (some a)
  | _ => .error .multipleResultsFound

/-- `ContactRepository.get_by_id` from `src/repository/contacts.py`:
`SELECT ... WHERE Contact.id == contact_id AND Contact.user_id == user.id`,
then `scalar_one_or_none`. -/
def ContactRepository.get_by_id (db : ContactDb) (contactId : Int)
    (user : UserResponse) : Except DbError (Option Contact) :=
  scalarOneOrNone (db.filter (fun c => c.id == contactId && c.user_id == user.id))

/-- `ContactCreate` from `src/schemas/contacts.py`, the update payload. -/
structure ContactUpdate where
  first_name : String
  last_name : String
  email : String
  phone_number : String
  birth_date : Int
  additional_info : Option String := none
  deriving DecidableEq, Repr

/-- The `setattr` loop of `ContactRepository.update`: overwrite every
field of the payload on the fetched contact. -/
def applyUpdate (c : Contact) (u : ContactUpdate) : Contact :=
  { c with
    first_name := u.first_name
    last_name := u.last_name
    email := u.email
    phone_number := u.phone_number
    birth_date := u.birth_date
    additional_info := u.additional_info }

/-- Committing a mutated contact row (rows keyed by primary key `id`). -/
def ContactDb.replace (db : ContactDb) (c : Contact) : ContactDb :=
  db.map (fun v => if v.id == c.id then c else v)

/-- `ContactRepository.update`: fetch via the user-scoped `get_by_id`;
`None` when absent, otherwise apply the payload and commit. -/
def ContactRepository.update (db : ContactDb) (contactId : Int)
    (updated : ContactUpdate) (user : UserResponse) :
    Except DbError (Option Contact × ContactDb) :=
  match ContactRepository.get_by_id db contactId user with
  | .error e => .error e
  | .ok none => .ok (none, db)
  | .ok (some c) =>
    let c := applyUpdate c updated
    .ok (some c, db.replace c)

/-- `ContactRepository.delete`: fetch via the user-scoped `get_by_id`;
`None` when absent, otherwise delete the row and commit. -/
def ContactRepository.delete (db : ContactDb) (contactId : Int)
    (user : UserResponse) : Except DbError (Option Contact × ContactDb) :=
  match ContactRepository.get_by_id db contactId user with
  | .error e => .error e
  | .ok none => .ok (none, db)
  | .ok (some c) => .ok (some c, db.filter (fun v => v.id ≠ c.id))

/-- HTTP-visible outcome of a contact route. -/
inductive RouteOutcome (α : Type)
  | ok (value : α)
  | httpError (status : Nat) (detail : String)
  | serverError (e : DbError)
  deriving DecidableEq, Repr

/-- `get_contact` route (`GET /contacts/{contact_id}`) from
`src/routes/contacts.py` via `ContactService.get_contact`: 404 when the
scoped lookup yields nothing. -/
def getContactRoute (db : ContactDb) (contactId : Int) (user : UserResponse) :
    RouteOutcome Contact :=
  match ContactRepository.get_by_id db contactId user with
  | .error e => .serverError e
  | .ok none => .httpError 404 "Contact not found"
  | .ok (some c) => .ok c

/-- `update_contact` route (`PUT /contacts/{contact_id}`): 404 when the
scoped lookup yields nothing, otherwise the updated contact. -/
def updateContactRoute (db : ContactDb) (contactId : Int)
    (updated : ContactUpdate) (user : UserResponse) :
    RouteOutcome Contact × ContactDb :=
  match ContactRepository.update db contactId updated user with
  | .error e => (.serverError e, db)
  | .ok (none, db) => (.httpError 404 "Contact not found", db)
  | .ok (some c, db) => (.ok c, db)

/-- `delete_contact` route (`DELETE /contacts/{contact_id}`): 404 when the
scoped lookup yields nothing, otherwise 204 No Content. -/
def deleteContactRoute (db : ContactDb) (contactId : Int)
    (user : UserResponse) : RouteOutcome Unit × ContactDb :=
  match ContactRepository.delete db contactId user with
  | .error e => (.serverError e, db)
  | .ok (none, db) => (.httpError 404 "Contact not found", db)
  | .ok (some _, db) => (.ok (), db)

/-! Concrete sample data shared by the witnesses and counterexamples. -/

/-- A concrete directory user used by several witnesses. -/
def sampleUser : User :=
  { id := 1
    email := "alice@example.com"
    hashed_password := Digest.bcrypt 5 42
    is_verified := true
    role := .user
    avatar_url := none
    created_at := "2024-01-01T00:00:00" }

/-- A decoded access-token payload for the sample user. -/
def samplePayload : Payload :=
  { sub := some "alice@example.com", typ := some "access" }

/-- A concrete contact owned by the sample user (id 1). -/
def sampleContact : Contact :=
  { id := 10
    user_id := 1
    first_name := "Bob"
    last_name := "Stone"
    email := "bob@example.com"
    phone_number := "12345"
    birth_date := 100
    additional_info := none }

/-- A second authenticated user (id 2), not the owner of `sampleContact`. -/
def otherUserResp : UserResponse :=
  { id := 2
    email := "eve@example.com"
    created_at := "2024-01-02T00:00:00"
    avatar_url := none
    role := .user }

/-- A concrete contact-update payload. -/
def sampleUpd : ContactUpdate :=
  { first_name := "B"
    last_name := "S"
    email := "b@example.com"
    phone_number := "54321"
    birth_date := 200
    additional_info := none }

/-- C4 counterexample: contrary to "never throws on malformed digest —
returns false", `verify_password` against a string passlib cannot identify
as a digest raises `UnknownHashError`; it does not return `False`. -/
theorem c4_counterexample :
    verify_password "password123" (Digest.malformed "not-a-digest") =
      Except.error PasslibError.unknownHash := rfl

/-- C4 (amended): for every plaintext and every well-formed bcrypt digest,
`verify_password` returns a boolean and never throws; on a digest passlib
cannot identify it raises `UnknownHashError` instead of returning false. -/
theorem c4_verify_totality :
    (∀ (p : String) (salt tag : Nat),
      ∃ b : Bool, verify_password p (Digest.bcrypt salt tag) = .ok b) ∧
    (∀ (p s : String),
      verify_password p (Digest.malformed s) = .error .unknownHash) := by
  refine ⟨fun p salt tag => ⟨bcryptKdf salt p == tag, rfl⟩, fun p s => rfl⟩

/-- C5: the password-reset request route returns the same observable
response — status 200 and the identical generic message — for every
directory state and every requested email, so account existence is not
inferable from the response. -/
theorem c5_reset_request_uniform_response (db₁ db₂ : Db) (email₁ email₂ : String) :
    (request_password_reset db₁ email₁).status =
      (request_password_reset db₂ email₂).status ∧
    (request_password_reset db₁ email₁).message =
      (request_password_reset db₂ email₂).message :=
  ⟨rfl, rfl⟩

/-- C6: hashing then verifying the same plaintext succeeds, and two calls
of the hasher (which draw distinct fresh salts) yield distinct digests
that both verify against the plaintext. -/
theorem c6_hash_verify_roundtrip (p : String) (salt₁ salt₂ : Nat)
    (hsalt : salt₁ ≠ salt₂) :
    verify_password p (get_password_hash salt₁ p) = .ok true ∧
    verify_password p (get_password_hash salt₂ p) = .ok true ∧
    get_password_hash salt₁ p ≠ get_password_hash salt₂ p := by
  refine ⟨?_, ?_, ?_⟩
  · simp [get_password_hash, verify_password]
  · simp [get_password_hash, verify_password]
  · intro h
    simp only [get_password_hash, Digest.bcrypt.injEq] at h
    exact hsalt h.1

/-- C6 witness at a concrete plaintext and two concrete salts. -/
theorem c6_hash_verify_roundtrip_witness :
    verify_password "password123" (get_password_hash 0 "password123") = .ok true ∧
    verify_password "password123" (get_password_hash 1 "password123") = .ok true ∧
    get_password_hash 0 "password123" ≠ get_password_hash 1 "password123" :=
  c6_hash_verify_roundtrip "password123" 0 1 (by decide)

/-- C8: neither email-verification-token redemption (`verify_token`,
including the successful path that sets the verification flag) nor an
avatar update touches the user cache: both leave the cache state exactly
as it was. -/
theorem c8_no_cache_invalidation (w : World) (token : Token) (user : User)
    (url : String) :
    (UserRepository.verify_token w token).2.cache = w.cache ∧
    (UserRepository.update_avatar w user url).2.cache = w.cache := by
  refine ⟨?_, rfl⟩
  unfold UserRepository.verify_token
  repeat' split
  all_goals rfl

/-- C2: when the token decodes with a subject and a non-reset purpose and
the subject's entry is present in the user cache, `get_current_user`
returns the deserialized cached snapshot, leaves the cache unchanged, and
performs zero User Directory reads. -/
theorem c2_cache_hit_no_directory_read (p : Payload) (email : String)
    (cache : Cache) (db : Db) (d : UserDict) (r : UserResponse)
    (hsub : p.sub = some email)
    (htyp : p.typ.getD "access" ≠ "password_reset")
    (hhit : get_user_data cache email = some d)
    (hdes : userResponseOfDict d = some r) :
    get_current_user (.valid p) cache db = ⟨.ok r, cache, 0⟩ := by
  simp [get_current_user, decodeToken, hsub, htyp, hhit, hdes]

/-- C2 witness: a concrete cache hit for the sample user, with an empty
directory, returning the cached snapshot with zero reads. -/
theorem c2_cache_hit_no_directory_read_witness :
    get_current_user (.valid samplePayload)
        [(cacheKey "alice@example.com", ⟨userDataDict sampleUser, 3600⟩)] [] =
      ⟨.ok sampleUser.toResponse,
       [(cacheKey "alice@example.com", ⟨userDataDict sampleUser, 3600⟩)], 0⟩ :=
  c2_cache_hit_no_directory_read samplePayload "alice@example.com"
    [(cacheKey "alice@example.com", ⟨userDataDict sampleUser, 3600⟩)] []
    (userDataDict sampleUser) sampleUser.toResponse rfl (by decide) rfl (by decide)

/-- C3: on a cache miss with a validly decoded access token,
`get_current_user` performs exactly one directory read; an absent user
yields 401 with the cache untouched, and a present user yields that user
with its snapshot written to the cache, where it is retrievable and
carries the default TTL of 3600 seconds. -/
theorem c3_cache_miss_directory_path (p : Payload) (email : String)
    (cache : Cache) (db : Db)
    (hsub : p.sub = some email)
    (htyp : p.typ.getD "access" ≠ "password_reset")
    (hmiss : get_user_data cache email = none) :
    (getByEmail db email = none →
      get_current_user (.valid p) cache db =
        ⟨.error credentialsException, cache, 1⟩) ∧
    (∀ u, getByEmail db email = some u →
      get_current_user (.valid p) cache db =
        ⟨.ok u.toResponse, set_user_data cache email (userDataDict u) none, 1⟩ ∧
      (set_user_data cache email (userDataDict u) none).find?
          (fun kv => kv.1 == cacheKey email) =
        some (cacheKey email, ⟨userDataDict u, 3600⟩)) := by
  constructor
  · intro habs
    simp [get_current_user, decodeToken, hsub, htyp, hmiss, habs]
  · intro u hu
    constructor
    · simp [get_current_user, decodeToken, hsub, htyp, hmiss, hu]
    · simp [set_user_data, List.find?]

/-- C3 witness: concrete miss-then-read for the sample user. -/
theorem c3_cache_miss_directory_path_witness :
    get_current_user (.valid samplePayload) [] [sampleUser] =
      ⟨.ok sampleUser.toResponse,
       set_user_data [] "alice@example.com" (userDataDict sampleUser) none, 1⟩ :=
  ((c3_cache_miss_directory_path samplePayload "alice@example.com" [] [sampleUser]
      rfl (by decide) rfl).2 sampleUser (by decide)).1

/-- C9: a payload without a `type` claim is treated exactly as purpose
`access` (the registration-time verification token carries only `sub`,
no `type`), so that token also authenticates through
`get_current_user`. -/
theorem c9_missing_type_treated_as_access (email : String) (p : Payload)
    (cache : Cache) (db : Db) (u : User)
    (hsub : p.sub = some email) (htyp : p.typ = none)
    (hmiss : get_user_data cache email = none)
    (hdb : getByEmail db email = some u) :
    registrationToken email = Token.valid {sub := some email, typ := none} ∧
    get_current_user (.valid p) cache db =
      get_current_user (.valid {p with typ := some "access"}) cache db ∧
    (get_current_user (registrationToken email) cache db).result =
      .ok u.toResponse := by
  refine ⟨rfl, ?_, ?_⟩
  · simp [get_current_user, decodeToken, htyp]
  · simp [get_current_user, decodeToken, registrationToken, create_access_token,
      hsub, hmiss, hdb]

/-- C9 witness: the registration verification token for the sample user
authenticates against an empty cache and the sample directory. -/
theorem c9_missing_type_treated_as_access_witness :
    (get_current_user (registrationToken "alice@example.com") [] [sampleUser]).result =
      .ok sampleUser.toResponse :=
  (c9_missing_type_treated_as_access "alice@example.com"
      {sub := some "alice@example.com", typ := none} [] [sampleUser] sampleUser
      rfl rfl rfl (by decide)).2.2

/-- C10: the snapshot written to the cache on the miss path is exactly the
dict with keys `id`, `email`, `created_at`, `avatar_url`, `role`, and it
is independent of the stored password hash (so the hash can never appear
in it). -/
theorem c10_snapshot_shape (p : Payload) (email : String)
    (cache : Cache) (db : Db) (u : User)
    (hsub : p.sub = some email)
    (htyp : p.typ.getD "access" ≠ "password_reset")
    (hmiss : get_user_data cache email = none)
    (hdb : getByEmail db email = some u) :
    (get_current_user (.valid p) cache db).cache =
      set_user_data cache email (userDataDict u) none ∧
    (userDataDict u).map Prod.fst =
      ["id", "email", "created_at", "avatar_url", "role"] ∧
    ∀ d : Digest, userDataDict {u with hashed_password := d} = userDataDict u := by
  refine ⟨?_, rfl, fun d => rfl⟩
  simp [get_current_user, decodeToken, hsub, htyp, hmiss, hdb]

/-- C10 witness at the sample user. -/
theorem c10_snapshot_shape_witness :
    (userDataDict sampleUser).map Prod.fst =
      ["id", "email", "created_at", "avatar_url", "role"] ∧
    userDataDict {sampleUser with hashed_password := Digest.malformed "x"} =
      userDataDict sampleUser :=
  ⟨(c10_snapshot_shape samplePayload "alice@example.com" [] [sampleUser] sampleUser
      rfl (by decide) rfl (by decide)).2.1,
   (c10_snapshot_shape samplePayload "alice@example.com" [] [sampleUser] sampleUser
      rfl (by decide) rfl (by decide)).2.2 (Digest.malformed "x")⟩

/-- C1 counterexample: the claim says an access-purpose token can never
make email verification succeed, but `UserRepository.verify_token` never
inspects the `type` claim: a token whose decoded `type` is `"access"`
redeems email verification for the (unverified) sample user. -/
theorem c1_counterexample :
    samplePayload.typ = some "access" ∧
    (verify_email ⟨[{sampleUser with is_verified := false}], []⟩
        (.valid samplePayload)).1 = .ok "Email verified successfully!" :=
  ⟨rfl, rfl⟩

/-- C1 (amended): a token whose decoded `type` claim is `password_reset`
always makes `get_current_user` fail 401 without any directory read, and
an access-purpose token (explicit `"access"` or absent `type`) never
redeems a password reset — but email verification does not check the
purpose claim and also accepts access-purpose tokens. -/
theorem c1_purpose_separation (p : Payload) (cache : Cache) (db : Db)
    (hp : p.typ = some "password_reset") :
    (get_current_user (.valid p) cache db).result = .error credentialsException ∧
    (get_current_user (.valid p) cache db).dbReads = 0 ∧
    ∀ (w : World) (salt : Nat) (q : Payload) (npw : String),
      q.typ = some "access" ∨ q.typ = none →
      UserRepository.reset_password w salt (.valid q) npw = (none, w) := by
  refine ⟨?_, ?_, ?_⟩
  · cases hsub : p.sub <;> simp [get_current_user, decodeToken, hsub, hp]
  · cases hsub : p.sub <;> simp [get_current_user, decodeToken, hsub, hp]
  · intro w salt q npw hq
    unfold UserRepository.reset_password
    simp only [decodeToken]
    split
    · rfl
    · exfalso
      next h =>
        have h2 := not_not.mp h
        rcases hq with hq | hq <;> rw [hq] at h2 <;> exact absurd h2 (by decide)

/-- C1 witness: a concrete `password_reset` token is rejected by
`get_current_user`, and a concrete access token is rejected by
password-reset redemption. -/
theorem c1_purpose_separation_witness :
    (get_current_user
        (.valid ⟨some "alice@example.com", some "password_reset"⟩) [] []).result =
      .error credentialsException ∧
    UserRepository.reset_password ⟨[sampleUser], []⟩ 0 (.valid samplePayload)
        "newpassword" = (none, ⟨[sampleUser], []⟩) :=
  ⟨(c1_purpose_separation ⟨some "alice@example.com", some "password_reset"⟩ [] []
      rfl).1,
   (c1_purpose_separation ⟨some "alice@example.com", some "password_reset"⟩ [] []
      rfl).2.2 ⟨[sampleUser], []⟩ 0 samplePayload "newpassword" (Or.inl rfl)⟩

/-- C7: a contact owned by one user is invisible to any other
authenticated user: get, update, and delete through the routes all yield
404 "Contact not found" (never 403), assuming primary-key uniqueness of
contact ids. -/
theorem c7_cross_user_access_404 (db : ContactDb) (c : Contact)
    (other : UserResponse) (upd : ContactUpdate)
    (hmem : c ∈ db)
    (huniq : ∀ e ∈ db, e.id = c.id → e = c)
    (hother : other.id ≠ c.user_id) :
    getContactRoute db c.id other = .httpError 404 "Contact not found" ∧
    updateContactRoute db c.id upd other = (.httpError 404 "Contact not found", db) ∧
    deleteContactRoute db c.id other = (.httpError 404 "Contact not found", db) := by
  have hfilter : db.filter (fun e => e.id == c.id && e.user_id == other.id) = [] := by
    rw [List.filter_eq_nil_iff]
    intro e he hpe
    simp only [Bool.and_eq_true, beq_iff_eq] at hpe
    rcases hpe with ⟨h1, h2⟩
    have hec := huniq e he h1
    subst hec
    exact hother h2.symm
  have hget : ContactRepository.get_by_id db c.id other = .ok none := by
    unfold ContactRepository.get_by_id
    rw [hfilter]
    rfl
  refine ⟨?_, ?_, ?_⟩
  · unfold getContactRoute
    rw [hget]
  · unfold updateContactRoute ContactRepository.update
    rw [hget]
  · unfold deleteContactRoute ContactRepository.delete
    rw [hget]

/-- C7 witness: user 2 gets 404 on user 1's concrete contact for all three
routes. -/
theorem c7_cross_user_access_404_witness :
    getContactRoute [sampleContact] sampleContact.id otherUserResp =
      .httpError 404 "Contact not found" ∧
    updateContactRoute [sampleContact] sampleContact.id sampleUpd otherUserResp =
      (.httpError 404 "Contact not found", [sampleContact]) ∧
    deleteContactRoute [sampleContact] sampleContact.id otherUserResp =
      (.httpError 404 "Contact not found", [sampleContact]) :=
  c7_cross_user_access_404 [sampleContact] sampleContact otherUserResp sampleUpd
    (by decide) (by decide) (by decide)

end ContactsApp
